import Mathlib

/-!
Shallow embedding of three components of the jito-solana validator and
theorems about their specified behaviour:

* the replay worker pool and `execute_batch` (`ledger/src/replayer.rs`),
* the wire-packet conversion (`mev/src/lib.rs`),
* the TPU shutdown logic (`core/src/tpu.rs`).

Machine integers are modelled as `Nat` with explicit saturation where the
source saturates.  External collaborators (the bank execution primitive, the
crossbeam channels, IP-address parsing, thread scheduling) are modelled as
explicit inputs so that every definition is executable.
-/

set_option linter.unusedVariables false

namespace Jito

/-! ## Machine-integer helpers -/

def U64_MAX : Nat := 2 ^ 64 - 1

/-- `u64::saturating_add`. -/
def satAdd64 (a b : Nat) : Nat := min (a + b) U64_MAX

/-! ## Transaction results (`solana_sdk::transaction`, reduced to the
variants this code constructs or inspects) -/

inductive InstructionError where
  | MaxAccountsDataSizeExceeded
  | OtherInstruction (code : Nat)
deriving DecidableEq, Repr

inductive TransactionError where
  | WouldExceedMaxBlockCostLimit
  | WouldExceedAccountDataBlockLimit
  | InstructionError (index : Nat) (ie : Jito.InstructionError)
  | OtherTransaction (code : Nat)
deriving DecidableEq, Repr

/-- `transaction::Result<()>`. -/
inductive TxResult where
  | ok
  | err (e : TransactionError)
deriving DecidableEq, Repr

def tx_is_err : TxResult → Bool
  | .ok => false
  | .err _ => true

/-! ## Execution timings -/

/-- The per-program entry of `ExecuteTimings.details.per_program_timings`
(only the fields read by `aggregate_total_execution_units`). -/
structure ProgramTiming where
  accumulated_units : Nat
  count : Nat
deriving DecidableEq, Repr

/-- `solana_program_runtime::timings::ExecuteTimings`, reduced to the map
read by `aggregate_total_execution_units`; keys are program ids. -/
structure ExecuteTimings where
  per_program_timings : List (Nat × ProgramTiming)
deriving DecidableEq, Repr

/-- `ExecuteTimings::default()`: an empty per-program map. -/
def ExecuteTimings.default : ExecuteTimings := ⟨[]⟩

/-- `replayer.rs` lines 174-185: sum of `accumulated_units / count` over all
per-program timings with `count >= 1`, with `u64` saturating addition. -/
def aggregate_total_execution_units (execute_timings : ExecuteTimings) : Nat :=
  execute_timings.per_program_timings.foldl
    (fun acc pt =>
      if pt.2.count < 1 then acc
      else satAdd64 acc (pt.2.accumulated_units / pt.2.count))
    0

/-! ## Block cost capacity meter -/

/-- Modelled from the spec: `BlockCostCapacityMeter` is defined in
`blockstore_processor.rs`, which is not among the sources here.  The spec
describes it as a per-block accumulator of executed compute units exposing
`accumulate(units) -> remaining`, where the remaining capacity saturates at
zero (capacity 100 with units 60, 30, 20 yields remaining 40, 10, 0). -/
structure BlockCostCapacityMeter where
  capacity : Nat
  accumulated : Nat
deriving DecidableEq, Repr

/-- Modelled from the spec: add `units` to the accumulated total and return
the updated meter together with the remaining capacity (saturating at 0). -/
def BlockCostCapacityMeter.accumulate (m : BlockCostCapacityMeter) (units : Nat) :
    BlockCostCapacityMeter × Nat :=
  let acc := satAdd64 m.accumulated units
  ({ m with accumulated := acc }, m.capacity - acc)

/-! ## Bank and transaction batch -/

/-- The three feature flags `execute_batch` and its helpers consult. -/
structure FeatureSet where
  gate_large_block : Bool
  cap_accounts_data_size_per_block : Bool
  cap_accounts_data_len : Bool
deriving DecidableEq, Repr

/-- The bank fields read by `execute_batch` and its helpers.
`accounts_data_size_delta_on_chain` is the `i64` returned by
`Bank::load_accounts_data_size_delta_on_chain`. -/
structure Bank where
  slot : Nat
  feature_set : FeatureSet
  accounts_data_size_delta_on_chain : Int
deriving DecidableEq, Repr

structure SanitizedTransaction where
  signature : Nat
  payload : Nat
deriving DecidableEq, Repr

/-- `TransactionBatch`: lock results plus the sanitized transactions (the
bank reference is passed separately in this model). -/
structure TransactionBatch where
  lock_results : List TxResult
  sanitized_transactions : List SanitizedTransaction
deriving DecidableEq, Repr

/-- `TransactionExecutionResult`, reduced to its `flattened_result()`. -/
structure TransactionExecutionResult where
  flattened_result : TxResult
deriving DecidableEq, Repr

/-- The fields of `TransactionResults` destructured by `execute_batch`. -/
structure TransactionResults where
  fee_collection_results : List TxResult
  execution_results : List TransactionExecutionResult
  rent_debits : List Nat
deriving DecidableEq, Repr

/-- Outcome of the external `Bank::load_execute_and_commit_transactions`
call: the produced results and balances, and the `ExecuteTimings` value after
the call has accumulated into the caller's mutable timings. -/
structure LoadExecuteCommitOutput where
  tx_results : TransactionResults
  balances : List Nat
  timings : ExecuteTimings
deriving DecidableEq, Repr

/-! ## Accounts-data-size checks -/

/-- `solana_runtime::block_cost_limits::MAX_ACCOUNT_DATA_BLOCK_LEN`
(external crate constant: 100 MB of account data per block). -/
def MAX_ACCOUNT_DATA_BLOCK_LEN : Nat := 100000000

/-- `replayer.rs` lines 319-334: per-block accounts-data-size check, gated by
the `cap_accounts_data_size_per_block` feature. -/
def check_accounts_data_block_size (bank : Bank) : TxResult :=
  if !bank.feature_set.cap_accounts_data_size_per_block then .ok
  else if bank.accounts_data_size_delta_on_chain > (MAX_ACCOUNT_DATA_BLOCK_LEN : Int) then
    .err .WouldExceedAccountDataBlockLimit
  else .ok

/-- The predicate matched by `check_accounts_data_total_size`'s `find`. -/
def is_max_accounts_data_size_exceeded : TxResult → Bool
  | .err (.InstructionError _ .MaxAccountsDataSizeExceeded) => true
  | _ => false

/-- `replayer.rs` lines 336-366: total accounts-data-size check, gated by the
`cap_accounts_data_len` feature; returns the first flattened execution result
carrying `InstructionError::MaxAccountsDataSizeExceeded`, if any. -/
def check_accounts_data_total_size (bank : Bank)
    (execution_results : List TransactionExecutionResult) : TxResult :=
  if !bank.feature_set.cap_accounts_data_len then .ok
  else
    match (execution_results.map TransactionExecutionResult.flattened_result).find?
        is_max_accounts_data_size_exceeded with
    | some r => r
    | none => .ok

/-- `replayer.rs` lines 310-317: both checks, per-block first. -/
def check_accounts_data_size (bank : Bank)
    (execution_results : List TransactionExecutionResult) : TxResult :=
  match check_accounts_data_block_size bank with
  | .err e => .err e
  | .ok => check_accounts_data_total_size bank execution_results

/-! ## First-error promotion -/

/-- Helper for `get_first_error`: first `Err` in a zipped
(result, transaction) list, paired with that transaction's signature. -/
def first_error_in : List (TxResult × SanitizedTransaction) → Option (TxResult × Nat)
  | [] => none
  | (r, tx) :: rest =>
    match r with
    | .err e => some (.err e, tx.signature)
    | .ok => first_error_in rest

/-- `replayer.rs` lines 279-308: scan `fee_collection_results` zipped with the
batch's transactions and keep the first error (with its signature). -/
def get_first_error (batch : TransactionBatch) (fee_collection_results : List TxResult) :
    Option (TxResult × Nat) :=
  first_error_in (fee_collection_results.zip batch.sanitized_transactions)

/-! ## execute_batch -/

/-- Observable side effects of `execute_batch` after the block-cost-cap gate:
the `find_and_send_votes` step (recording whether a `replay_vote_sender` was
present) and the transaction-status publication. -/
inductive ExecEvent where
  | votes_scan (sender_present : Bool)
  | status_batch_sent
deriving DecidableEq, Repr

structure ExecBatchOutput where
  result : TxResult
  timings : ExecuteTimings
  meter : BlockCostCapacityMeter
  events : List ExecEvent
deriving DecidableEq, Repr

/-- `replayer.rs` lines 239-277: the part of `execute_batch` after the
block-cost-cap gate: forward votes, run the accounts-data-size checks,
publish transaction statuses if a sender is configured, and promote the
first fee-collection error. -/
def execute_batch_rest (batch : TransactionBatch) (bank : Bank)
    (transaction_status_sender replay_vote_sender : Bool)
    (tx_results : TransactionResults) (timings : ExecuteTimings)
    (meter : BlockCostCapacityMeter) : ExecBatchOutput :=
  let events := [ExecEvent.votes_scan replay_vote_sender]
  match check_accounts_data_size bank tx_results.execution_results with
  | .err e => { result := .err e, timings := timings, meter := meter, events := events }
  | .ok =>
    let events :=
      if transaction_status_sender then events ++ [ExecEvent.status_batch_sent] else events
    let result :=
      ((get_first_error batch tx_results.fee_collection_results).map Prod.fst).getD .ok
    { result := result, timings := timings, meter := meter, events := events }

/-- `replayer.rs` lines 187-277.  External effects are explicit: `exec` is
the behaviour of `Bank::load_execute_and_commit_transactions` for this call
(in the source it mutates `timings` in place; here the post-call value is
`exec.timings`), the cost meter is threaded as state (in the source it sits
behind an exclusive `RwLock` write lock), and vote/status emissions are
recorded as events. -/
def execute_batch (batch : TransactionBatch) (bank : Bank)
    (transaction_status_sender replay_vote_sender : Bool)
    (timings : ExecuteTimings) (cost_capacity_meter : BlockCostCapacityMeter)
    (exec : LoadExecuteCommitOutput) : ExecBatchOutput :=
  let pre_process_units := aggregate_total_execution_units timings
  let post_timings := exec.timings
  if bank.feature_set.gate_large_block then
    let execution_cost_units := aggregate_total_execution_units post_timings - pre_process_units
    let acc := cost_capacity_meter.accumulate execution_cost_units
    if acc.2 = 0 then
      { result := .err .WouldExceedMaxBlockCostLimit, timings := post_timings,
        meter := acc.1, events := [] }
    else
      execute_batch_rest batch bank transaction_status_sender replay_vote_sender
        exec.tx_results post_timings acc.1
  else
    execute_batch_rest batch bank transaction_status_sender replay_vote_sender
      exec.tx_results post_timings cost_capacity_meter

/-! ## Replayer handle and worker loop -/

structure ReplayResponse where
  result : TxResult
  timing : ExecuteTimings
  idx : Option Nat
deriving DecidableEq, Repr

structure ReplayRequest where
  bank : Bank
  tx : SanitizedTransaction
  transaction_status_sender : Bool
  replay_vote_sender : Bool
  cost_capacity_meter : BlockCostCapacityMeter
  entry_callback : Bool
  idx : Option Nat
deriving DecidableEq, Repr

/-- Outcome of a blocking crossbeam channel receive; `closed` models
`RecvError`, which crossbeam returns exactly when the channel is closed and
empty. -/
inductive RecvOut (α : Type) where
  | ok (a : α)
  | closed
deriving DecidableEq, Repr

/-- `replayer.rs` lines 76-81 (`ReplayerHandle::recv_and_drain`): `first` is
the outcome of the blocking `recv()`, and `ready` are the responses already
queued at that moment, drained without blocking by `try_iter`. -/
def recv_and_drain (first : RecvOut ReplayResponse) (ready : List ReplayResponse) :
    RecvOut (List ReplayResponse) :=
  match first with
  | .ok r => .ok (r :: ready)
  | .closed => .closed

inductive WorkerStep where
  | continue_loop
  | exit_send_failed
  | exit_clean
deriving DecidableEq, Repr

structure WorkerIterationOutput where
  responses : List ReplayResponse
  callback_invoked : Bool
  step : WorkerStep
deriving DecidableEq, Repr

/-- One iteration of the replay worker loop (`replayer.rs` lines 108-161):
on a received request, build a fresh `ExecuteTimings::default()`, wrap the
transaction in a single-element `TransactionBatch` with one `Ok` lock result,
execute it, invoke the entry callback if present, and send one response
carrying the request's `idx`; `send_ok` is whether the response send
succeeded (it fails when the handle owner dropped the receiver). -/
def worker_iteration (recv : RecvOut ReplayRequest) (exec : LoadExecuteCommitOutput)
    (send_ok : Bool) : WorkerIterationOutput :=
  match recv with
  | .closed => { responses := [], callback_invoked := false, step := .exit_clean }
  | .ok req =>
    let batch : TransactionBatch :=
      { lock_results := [.ok], sanitized_transactions := [req.tx] }
    let out := execute_batch batch req.bank req.transaction_status_sender
      req.replay_vote_sender ExecuteTimings.default req.cost_capacity_meter exec
    let resp : ReplayResponse := { result := out.result, timing := out.timings, idx := req.idx }
    if send_ok then
      { responses := [resp], callback_invoked := req.entry_callback, step := .continue_loop }
    else
      { responses := [], callback_invoked := req.entry_callback, step := .exit_send_failed }

/-! ## Wire-packet conversion (`mev/src/lib.rs`) -/

def PACKET_DATA_SIZE : Nat := 1232

/-- `std::net::IpAddr`, with unbounded components (values are bytes or
16-bit segments in practice; nothing here depends on the bounds). -/
inductive IpAddr where
  | v4 (a b c d : Nat)
  | v6 (segments : List Nat)
deriving DecidableEq, Repr

/-- `mev/src/lib.rs` line 25. -/
def UNKNOWN_IP : IpAddr := .v4 0 0 0 0

/-- `solana_sdk::packet::PacketFlags`, as a record of booleans. -/
structure PacketFlags where
  simple_vote_tx : Bool := false
  forwarded : Bool := false
  tracer_tx : Bool := false
  repair : Bool := false
  discard : Bool := false
deriving DecidableEq, Repr

/-- `solana_sdk::packet::Meta`; its `Default` has size 0, the unspecified
address, port 0 and no flags. -/
structure Meta where
  size : Nat := 0
  addr : IpAddr := UNKNOWN_IP
  port : Nat := 0
  flags : PacketFlags := {}
deriving DecidableEq, Repr

/-- Canonical `solana_sdk::packet::Packet`: a fixed-size data buffer (the
invariant `data.length = PACKET_DATA_SIZE` is established by the
constructor) plus metadata. -/
structure Packet where
  data : List Nat
  meta : Meta
deriving DecidableEq, Repr

/-- Wire-schema flag booleans (`proto::packet::PacketFlags`). -/
structure ProtoPacketFlags where
  simple_vote_tx : Bool
  forwarded : Bool
  tracer_tx : Bool
  repair : Bool
deriving DecidableEq, Repr

/-- Wire-schema metadata (`proto::packet::Meta`): `size` is a `u64`,
`addr` a string, `port` a `u32`. -/
structure ProtoMeta where
  size : Nat
  addr : String
  port : Nat
  flags : Option ProtoPacketFlags
deriving DecidableEq, Repr

/-- Wire-schema packet (`proto::packet::Packet`). -/
structure ProtoPacket where
  data : List Nat
  meta : Option ProtoMeta
deriving DecidableEq, Repr

/-- `mev/src/lib.rs` lines 29-54 (`proto_packet_to_packet`).  `parse_ip`
models `str::parse::<IpAddr>` (external standard library); `meta.port as u16`
truncates modulo 2^16, and `meta.size as usize` is the identity on a 64-bit
target. -/
def proto_packet_to_packet (parse_ip : String → Option IpAddr) (p : ProtoPacket) : Packet :=
  let copy_len := min PACKET_DATA_SIZE p.data.length
  let data := p.data.take copy_len ++ List.replicate (PACKET_DATA_SIZE - copy_len) 0
  let packet : Packet := { data := data, meta := {} }
  match p.meta with
  | none => packet
  | some meta =>
    let flags : PacketFlags :=
      match meta.flags with
      | none => {}
      | some f =>
        { simple_vote_tx := f.simple_vote_tx, forwarded := f.forwarded,
          tracer_tx := f.tracer_tx, repair := f.repair, discard := false }
    { packet with
        meta := { size := meta.size, addr := (parse_ip meta.addr).getD UNKNOWN_IP,
                  port := meta.port % 65536, flags := flags } }

/-- Modelled from the spec: re-serialization of a canonical `Packet` back to
the wire schema is not among the sources here; following the spec's wire
schema, it emits the full data buffer, renders the address with
`ip_to_string` (the standard library's display form), and maps the flag set
back to flag booleans. -/
def packet_to_proto_packet (ip_to_string : IpAddr → String) (pkt : Packet) : ProtoPacket :=
  { data := pkt.data,
    meta := some
      { size := pkt.meta.size, addr := ip_to_string pkt.meta.addr, port := pkt.meta.port,
        flags := some
          { simple_vote_tx := pkt.meta.flags.simple_vote_tx,
            forwarded := pkt.meta.flags.forwarded,
            tracer_tx := pkt.meta.flags.tracer_tx,
            repair := pkt.meta.flags.repair } } }

/-- Zero-pad a wire data payload to the fixed packet size (truncating if
larger); two payloads carry the same bytes "padding aside" exactly when
their paddings agree. -/
def pad_to_mtu (l : List Nat) : List Nat :=
  l.take PACKET_DATA_SIZE ++ List.replicate (PACKET_DATA_SIZE - l.length) 0

/-- The address a wire packet denotes: parse `addr`, falling back to
`0.0.0.0`; an absent meta denotes the default (unspecified) address. -/
def wire_logical_addr (parse_ip : String → Option IpAddr) (p : ProtoPacket) : IpAddr :=
  match p.meta with
  | none => UNKNOWN_IP
  | some m => (parse_ip m.addr).getD UNKNOWN_IP

def wire_logical_port (p : ProtoPacket) : Nat :=
  match p.meta with
  | none => 0
  | some m => m.port

def wire_logical_size (p : ProtoPacket) : Nat :=
  match p.meta with
  | none => 0
  | some m => m.size

def wire_logical_flags (p : ProtoPacket) : ProtoPacketFlags :=
  match p.meta with
  | none => ⟨false, false, false, false⟩
  | some m => m.flags.getD ⟨false, false, false, false⟩

/-- Same logical content of two wire packets: same data bytes (padding
aside), same denoted address, port, size, and flag booleans. -/
def wire_logical_equiv (parse_ip : String → Option IpAddr) (p q : ProtoPacket) : Prop :=
  pad_to_mtu p.data = pad_to_mtu q.data ∧
  wire_logical_addr parse_ip p = wire_logical_addr parse_ip q ∧
  wire_logical_port p = wire_logical_port q ∧
  wire_logical_size p = wire_logical_size q ∧
  wire_logical_flags p = wire_logical_flags q

instance (parse_ip : String → Option IpAddr) (p q : ProtoPacket) :
    Decidable (wire_logical_equiv parse_ip p q) := by
  unfold wire_logical_equiv; infer_instance

/-! ## TPU shutdown (`core/src/tpu.rs`) -/

/-- `core/src/tpu.rs` line 48. -/
def TPU_THREADS_JOIN_TIMEOUT_SECONDS : Nat := 10

/-- The worker groups joined by `Tpu::do_join`. -/
inductive TpuStage where
  | fetch_stage
  | sigverify_stage
  | vote_sigverify_stage
  | cluster_info_vote_listener
  | banking_stage
  | find_packet_sender_stake_stage
  | vote_find_packet_sender_stake_stage
  | staked_nodes_updater_service
  | mev_stage
  | bundle_stage
  | tpu_quic
  | broadcast_stage
deriving DecidableEq, Repr

/-- `thread::Result<()>` of one stage's `join` (`err` also stands for a
propagated panic payload). -/
inductive JoinResult where
  | ok
  | err (code : Nat)
deriving DecidableEq, Repr

def join_result_is_err : JoinResult → Bool
  | .ok => false
  | .err _ => true

/-- The order in which `Tpu::do_join` (lines 294-305) joins the pipeline
stages, before the QUIC listener and the broadcast stage. -/
def tpu_pipeline_join_order : List TpuStage :=
  [.fetch_stage, .sigverify_stage, .vote_sigverify_stage, .cluster_info_vote_listener,
   .banking_stage, .find_packet_sender_stake_stage, .vote_find_packet_sender_stake_stage,
   .staked_nodes_updater_service, .mev_stage, .bundle_stage]

/-- `Tpu::do_join` (`core/src/tpu.rs` lines 293-313): join the ten pipeline
stages collecting their results, then the QUIC listener (propagating its
error immediately), then the broadcast stage; the returned value is the first
pipeline error, else the broadcast result.  `j` gives each stage's join
outcome; the first component of the output is the join order actually
performed. -/
def do_join (j : TpuStage → JoinResult) : List TpuStage × JoinResult :=
  let results := tpu_pipeline_join_order.map j
  match j TpuStage.tpu_quic with
  | .err e => (tpu_pipeline_join_order ++ [TpuStage.tpu_quic], .err e)
  | .ok =>
    let broadcast_result := j TpuStage.broadcast_stage
    let res :=
      match results.find? join_result_is_err with
      | some r => r
      | none => broadcast_result
    (tpu_pipeline_join_order ++ [TpuStage.tpu_quic, TpuStage.broadcast_stage], res)

structure TpuJoinOutcome where
  elapsed_seconds : Nat
  timeout_logged : Bool
  result : JoinResult
deriving DecidableEq, Repr

/-- `Tpu::join` (`core/src/tpu.rs` lines 277-291): spawn a waiter thread that
runs `do_join` and discards its result, then block on its completion signal
with `recv_timeout(10 s)`.  `do_join_seconds` is the wall-clock time until
the waiter signals (`none` models a waiter that never signals: a stuck or
panicked `do_join`); `recv_timeout` returns when the signal arrives or the
timeout elapses, whichever is first, and on timeout the error is logged.
`Tpu::join` itself always returns `Ok(())`. -/
def tpu_join (do_join_seconds : Option Nat) (j : TpuStage → JoinResult) : TpuJoinOutcome :=
  let _ := do_join j
  match do_join_seconds with
  | some t =>
    if t ≤ TPU_THREADS_JOIN_TIMEOUT_SECONDS then
      { elapsed_seconds := t, timeout_logged := false, result := .ok }
    else
      { elapsed_seconds := TPU_THREADS_JOIN_TIMEOUT_SECONDS, timeout_logged := true,
        result := .ok }
  | none =>
    { elapsed_seconds := TPU_THREADS_JOIN_TIMEOUT_SECONDS, timeout_logged := true,
      result := .ok }

/-! ## Helper lemmas -/

lemma first_error_in_zip_eq_find (l : List TxResult) (txs : List SanitizedTransaction)
    (h : l.length ≤ txs.length) :
    (first_error_in (l.zip txs)).map Prod.fst = l.find? tx_is_err := by
  induction l generalizing txs with
  | nil => simp [first_error_in]
  | cons r rest ih =>
    cases txs with
    | nil => simp at h
    | cons t ts =>
      cases r with
      | err e =>
        rw [List.zip_cons_cons, List.find?_cons_of_pos _ (by simp [tx_is_err])]
        simp [first_error_in]
      | ok =>
        rw [List.zip_cons_cons, List.find?_cons_of_neg _ (by simp [tx_is_err])]
        exact ih ts (by simpa using h)

lemma first_error_in_mem (z : List (TxResult × SanitizedTransaction)) (p : TxResult × Nat)
    (h : first_error_in z = some p) : ∃ t, (p.1, t) ∈ z := by
  induction z with
  | nil => simp [first_error_in] at h
  | cons a rest ih =>
    obtain ⟨r, tx⟩ := a
    cases r with
    | err e =>
      simp only [first_error_in, Option.some.injEq] at h
      exact ⟨tx, by simp [← h]⟩
    | ok =>
      obtain ⟨t, ht⟩ := ih (by simpa [first_error_in] using h)
      exact ⟨t, List.mem_cons_of_mem _ ht⟩

lemma check_accounts_data_block_size_cases (bank : Bank) :
    check_accounts_data_block_size bank = .ok ∨
    check_accounts_data_block_size bank = .err .WouldExceedAccountDataBlockLimit := by
  unfold check_accounts_data_block_size
  split
  · exact Or.inl rfl
  · split
    · exact Or.inr rfl
    · exact Or.inl rfl

lemma is_max_accounts_data_size_exceeded_true {r : TxResult}
    (h : is_max_accounts_data_size_exceeded r = true) :
    ∃ i, r = .err (.InstructionError i .MaxAccountsDataSizeExceeded) := by
  cases r with
  | ok => simp [is_max_accounts_data_size_exceeded] at h
  | err e =>
    cases e with
    | InstructionError i ie =>
      cases ie with
      | MaxAccountsDataSizeExceeded => exact ⟨i, rfl⟩
      | OtherInstruction c => simp [is_max_accounts_data_size_exceeded] at h
    | WouldExceedMaxBlockCostLimit => simp [is_max_accounts_data_size_exceeded] at h
    | WouldExceedAccountDataBlockLimit => simp [is_max_accounts_data_size_exceeded] at h
    | OtherTransaction c => simp [is_max_accounts_data_size_exceeded] at h

lemma check_accounts_data_total_size_cases (bank : Bank)
    (ers : List TransactionExecutionResult) :
    check_accounts_data_total_size bank ers = .ok ∨
    ∃ i, check_accounts_data_total_size bank ers
      = .err (.InstructionError i .MaxAccountsDataSizeExceeded) := by
  unfold check_accounts_data_total_size
  split
  · exact Or.inl rfl
  · cases hf : (ers.map TransactionExecutionResult.flattened_result).find?
        is_max_accounts_data_size_exceeded with
    | none => simp [hf]
    | some r =>
      obtain ⟨i, hi⟩ := is_max_accounts_data_size_exceeded_true (List.find?_some hf)
      simp [hf, hi]

lemma check_accounts_data_size_cases (bank : Bank)
    (ers : List TransactionExecutionResult) :
    check_accounts_data_size bank ers = .ok ∨
    check_accounts_data_size bank ers = .err .WouldExceedAccountDataBlockLimit ∨
    ∃ i, check_accounts_data_size bank ers
      = .err (.InstructionError i .MaxAccountsDataSizeExceeded) := by
  unfold check_accounts_data_size
  rcases check_accounts_data_block_size_cases bank with h | h <;> rw [h]
  · rcases check_accounts_data_total_size_cases bank ers with h2 | ⟨i, h2⟩ <;> rw [h2]
    · exact Or.inl rfl
    · exact Or.inr (Or.inr ⟨i, rfl⟩)
  · exact Or.inr (Or.inl rfl)

/-- The value `execute_batch_rest` returns when the accounts-data checks
pass. -/
lemma execute_batch_rest_of_checks_ok (batch : TransactionBatch) (bank : Bank)
    (tss rvs : Bool) (txr : TransactionResults) (t : ExecuteTimings)
    (m : BlockCostCapacityMeter)
    (hok : check_accounts_data_size bank txr.execution_results = .ok) :
    execute_batch_rest batch bank tss rvs txr t m =
      { result := ((get_first_error batch txr.fee_collection_results).map Prod.fst).getD .ok,
        timings := t, meter := m,
        events :=
          if tss then [ExecEvent.votes_scan rvs, ExecEvent.status_batch_sent]
          else [ExecEvent.votes_scan rvs] } := by
  unfold execute_batch_rest
  rw [hok]
  rfl

/-- The value `execute_batch_rest` returns when an accounts-data check
fails. -/
lemma execute_batch_rest_of_checks_err (batch : TransactionBatch) (bank : Bank)
    (tss rvs : Bool) (txr : TransactionResults) (t : ExecuteTimings)
    (m : BlockCostCapacityMeter) (e : TransactionError)
    (he : check_accounts_data_size bank txr.execution_results = .err e) :
    execute_batch_rest batch bank tss rvs txr t m =
      { result := .err e, timings := t, meter := m,
        events := [ExecEvent.votes_scan rvs] } := by
  unfold execute_batch_rest
  rw [he]

lemma execute_batch_rest_meter (batch : TransactionBatch) (bank : Bank)
    (tss rvs : Bool) (txr : TransactionResults) (t : ExecuteTimings)
    (m : BlockCostCapacityMeter) :
    (execute_batch_rest batch bank tss rvs txr t m).meter = m := by
  unfold execute_batch_rest
  rcases check_accounts_data_size_cases bank txr.execution_results with h | h | ⟨i, h⟩ <;>
    rw [h]

/-- If `execute_batch_rest` returns `WouldExceedMaxBlockCostLimit`, that
error came from `fee_collection_results`: neither accounts-data check can
produce it. -/
lemma execute_batch_rest_cost_error_mem (batch : TransactionBatch) (bank : Bank)
    (tss rvs : Bool) (txr : TransactionResults) (t : ExecuteTimings)
    (m : BlockCostCapacityMeter)
    (h : (execute_batch_rest batch bank tss rvs txr t m).result
        = .err .WouldExceedMaxBlockCostLimit) :
    TxResult.err .WouldExceedMaxBlockCostLimit ∈ txr.fee_collection_results := by
  rcases check_accounts_data_size_cases bank txr.execution_results with hc | hc | ⟨i, hc⟩
  · rw [execute_batch_rest_of_checks_ok batch bank tss rvs txr t m hc] at h
    simp only at h
    cases hge : get_first_error batch txr.fee_collection_results with
    | none => rw [hge] at h; exact absurd h (by simp)
    | some p =>
      obtain ⟨r, s⟩ := p
      rw [hge] at h
      simp only [Option.map_some', Option.getD_some] at h
      obtain ⟨tx, htx⟩ := first_error_in_mem _ _ hge
      rw [h] at htx
      exact (List.of_mem_zip htx).1
  · rw [execute_batch_rest_of_checks_err batch bank tss rvs txr t m _ hc] at h
    simp at h
  · rw [execute_batch_rest_of_checks_err batch bank tss rvs txr t m _ hc] at h
    simp at h

/-- When the cost cap does not short-circuit (feature off, or remaining
capacity nonzero), `execute_batch` is `execute_batch_rest` with some meter
state. -/
lemma execute_batch_no_cost_short_circuit (batch : TransactionBatch) (bank : Bank)
    (tss rvs : Bool) (timings : ExecuteTimings) (meter : BlockCostCapacityMeter)
    (exec : LoadExecuteCommitOutput)
    (hcap : bank.feature_set.gate_large_block = false ∨
      (meter.accumulate (aggregate_total_execution_units exec.timings
        - aggregate_total_execution_units timings)).2 ≠ 0) :
    ∃ m, execute_batch batch bank tss rvs timings meter exec
      = execute_batch_rest batch bank tss rvs exec.tx_results exec.timings m := by
  rcases hcap with h | h
  · exact ⟨meter, by simp [execute_batch, h]⟩
  · by_cases hg : bank.feature_set.gate_large_block = true
    · exact ⟨(meter.accumulate (aggregate_total_execution_units exec.timings
        - aggregate_total_execution_units timings)).1, by simp [execute_batch, hg, h]⟩
    · simp only [Bool.not_eq_true] at hg
      exact ⟨meter, by simp [execute_batch, hg]⟩

lemma proto_buffer_eq_pad (l : List Nat) :
    l.take (min PACKET_DATA_SIZE l.length)
      ++ List.replicate (PACKET_DATA_SIZE - min PACKET_DATA_SIZE l.length) 0
      = pad_to_mtu l := by
  unfold pad_to_mtu
  rcases Nat.le_total l.length PACKET_DATA_SIZE with h | h
  · rw [Nat.min_eq_right h, List.take_length, List.take_of_length_le h]
  · rw [Nat.min_eq_left h, Nat.sub_self, Nat.sub_eq_zero_of_le h]

lemma pad_to_mtu_length (l : List Nat) : (pad_to_mtu l).length = PACKET_DATA_SIZE := by
  unfold pad_to_mtu
  rw [List.length_append, List.length_take, List.length_replicate]
  omega

lemma pad_to_mtu_of_length_eq {l : List Nat} (h : l.length = PACKET_DATA_SIZE) :
    pad_to_mtu l = l := by
  unfold pad_to_mtu
  rw [List.take_of_length_le (le_of_eq h), h, Nat.sub_self]
  simp

lemma proto_packet_to_packet_data (parse_ip : String → Option IpAddr) (p : ProtoPacket) :
    (proto_packet_to_packet parse_ip p).data = pad_to_mtu p.data := by
  cases hm : p.meta <;>
    simp [proto_packet_to_packet, hm, proto_buffer_eq_pad]

lemma proto_packet_to_packet_addr (parse_ip : String → Option IpAddr) (p : ProtoPacket) :
    (proto_packet_to_packet parse_ip p).meta.addr = wire_logical_addr parse_ip p := by
  cases hm : p.meta <;> simp [proto_packet_to_packet, hm, wire_logical_addr, Meta]

lemma proto_packet_to_packet_port (parse_ip : String → Option IpAddr) (p : ProtoPacket) :
    (proto_packet_to_packet parse_ip p).meta.port = wire_logical_port p % 65536 := by
  cases hm : p.meta <;> simp [proto_packet_to_packet, hm, wire_logical_port, Meta]

lemma proto_packet_to_packet_size (parse_ip : String → Option IpAddr) (p : ProtoPacket) :
    (proto_packet_to_packet parse_ip p).meta.size = wire_logical_size p := by
  cases hm : p.meta <;> simp [proto_packet_to_packet, hm, wire_logical_size, Meta]

lemma proto_packet_to_packet_flags (parse_ip : String → Option IpAddr) (p : ProtoPacket) :
    (proto_packet_to_packet parse_ip p).meta.flags
      = { simple_vote_tx := (wire_logical_flags p).simple_vote_tx,
          forwarded := (wire_logical_flags p).forwarded,
          tracer_tx := (wire_logical_flags p).tracer_tx,
          repair := (wire_logical_flags p).repair, discard := false } := by
  cases hm : p.meta with
  | none => simp [proto_packet_to_packet, hm, wire_logical_flags, Meta, PacketFlags]
  | some m =>
    cases hf : m.flags <;>
      simp [proto_packet_to_packet, hm, hf, wire_logical_flags, Meta, PacketFlags]

/-! ## Claim theorems -/

/-- C1: in `execute_batch` the block-cost-cap check runs if and only if the
bank's `gate_large_block` feature is active.  When active, the
execution-unit delta is accumulated into the cost meter (threaded here as
state; exclusively write-locked in the source), and if the returned
remaining capacity is 0 the function returns
`Err(WouldExceedMaxBlockCostLimit)` immediately, with no vote forwarded and
no transaction status published (empty event trace); otherwise it continues
with the accumulated meter.  When inactive, the meter is never touched and a
`WouldExceedMaxBlockCostLimit` result can only be one already present in
`fee_collection_results`, never one produced by the cost-cap step. -/
theorem execute_batch_cost_cap_gating (batch : TransactionBatch) (bank : Bank)
    (tss rvs : Bool) (timings : ExecuteTimings) (meter : BlockCostCapacityMeter)
    (exec : LoadExecuteCommitOutput) :
    (bank.feature_set.gate_large_block = true →
      (execute_batch batch bank tss rvs timings meter exec).meter
        = (meter.accumulate (aggregate_total_execution_units exec.timings
            - aggregate_total_execution_units timings)).1 ∧
      ((meter.accumulate (aggregate_total_execution_units exec.timings
            - aggregate_total_execution_units timings)).2 = 0 →
        execute_batch batch bank tss rvs timings meter exec
          = { result := .err .WouldExceedMaxBlockCostLimit, timings := exec.timings,
              meter := (meter.accumulate (aggregate_total_execution_units exec.timings
                - aggregate_total_execution_units timings)).1, events := [] }) ∧
      ((meter.accumulate (aggregate_total_execution_units exec.timings
            - aggregate_total_execution_units timings)).2 ≠ 0 →
        execute_batch batch bank tss rvs timings meter exec
          = execute_batch_rest batch bank tss rvs exec.tx_results exec.timings
              (meter.accumulate (aggregate_total_execution_units exec.timings
                - aggregate_total_execution_units timings)).1)) ∧
    (bank.feature_set.gate_large_block = false →
      execute_batch batch bank tss rvs timings meter exec
        = execute_batch_rest batch bank tss rvs exec.tx_results exec.timings meter ∧
      (execute_batch batch bank tss rvs timings meter exec).meter = meter ∧
      ((execute_batch batch bank tss rvs timings meter exec).result
          = .err .WouldExceedMaxBlockCostLimit →
        TxResult.err .WouldExceedMaxBlockCostLimit
          ∈ exec.tx_results.fee_collection_results)) := by
  constructor
  · intro h
    by_cases hz : (meter.accumulate (aggregate_total_execution_units exec.timings
        - aggregate_total_execution_units timings)).2 = 0
    · refine ⟨?_, fun _ => ?_, fun hnz => absurd hz hnz⟩ <;>
        simp [execute_batch, h, hz]
    · refine ⟨?_, fun hzz => absurd hzz hz, fun _ => ?_⟩ <;>
        simp [execute_batch, h, hz, execute_batch_rest_meter]
  · intro h
    have he : execute_batch batch bank tss rvs timings meter exec
        = execute_batch_rest batch bank tss rvs exec.tx_results exec.timings meter := by
      simp [execute_batch, h]
    refine ⟨he, ?_, ?_⟩
    · rw [he]
      exact execute_batch_rest_meter batch bank tss rvs exec.tx_results exec.timings meter
    · rw [he]
      exact execute_batch_rest_cost_error_mem batch bank tss rvs exec.tx_results
        exec.timings meter

/-- C1 witness: a concrete call with `gate_large_block` active and a meter
whose remaining capacity saturates to 0 returns
`Err(WouldExceedMaxBlockCostLimit)` with no vote or status event. -/
theorem execute_batch_cost_cap_gating_witness :
    (execute_batch ⟨[.ok], [⟨1, 0⟩]⟩ ⟨7, ⟨true, false, false⟩, 0⟩ true true
        ⟨[]⟩ ⟨5, 0⟩ ⟨⟨[], [], []⟩, [], ⟨[(1, ⟨10, 1⟩)]⟩⟩).result
      = .err .WouldExceedMaxBlockCostLimit ∧
    (execute_batch ⟨[.ok], [⟨1, 0⟩]⟩ ⟨7, ⟨true, false, false⟩, 0⟩ true true
        ⟨[]⟩ ⟨5, 0⟩ ⟨⟨[], [], []⟩, [], ⟨[(1, ⟨10, 1⟩)]⟩⟩).events = [] := by
  have h := ((execute_batch_cost_cap_gating ⟨[.ok], [⟨1, 0⟩]⟩ ⟨7, ⟨true, false, false⟩, 0⟩
      true true ⟨[]⟩ ⟨5, 0⟩ ⟨⟨[], [], []⟩, [], ⟨[(1, ⟨10, 1⟩)]⟩⟩).1 rfl).2.1 (by decide)
  rw [h]
  exact ⟨rfl, rfl⟩

/-- C2: when `execute_batch` reaches its first-error-promotion step (the
cost cap does not short-circuit and the accounts-data checks pass, the
execution results being one per transaction), it returns the error at the
smallest index of `fee_collection_results` if one exists and `Ok(())`
otherwise; later errors never influence the returned value (this is exactly
`List.find?`). -/
theorem execute_batch_first_error (batch : TransactionBatch) (bank : Bank)
    (tss rvs : Bool) (timings : ExecuteTimings) (meter : BlockCostCapacityMeter)
    (exec : LoadExecuteCommitOutput)
    (hlen : exec.tx_results.fee_collection_results.length
        ≤ batch.sanitized_transactions.length)
    (hcap : bank.feature_set.gate_large_block = false ∨
      (meter.accumulate (aggregate_total_execution_units exec.timings
        - aggregate_total_execution_units timings)).2 ≠ 0)
    (hdata : check_accounts_data_size bank exec.tx_results.execution_results = .ok) :
    (execute_batch batch bank tss rvs timings meter exec).result
      = (exec.tx_results.fee_collection_results.find? tx_is_err).getD .ok := by
  obtain ⟨m, hm⟩ := execute_batch_no_cost_short_circuit batch bank tss rvs timings meter
    exec hcap
  rw [hm, execute_batch_rest_of_checks_ok batch bank tss rvs exec.tx_results
    exec.timings m hdata]
  simp only
  rw [get_first_error, first_error_in_zip_eq_find _ _ hlen]

/-- C2 witness: with errors at indices 1 and 2, the error at index 1 is
returned. -/
theorem execute_batch_first_error_witness :
    (execute_batch ⟨[.ok, .ok, .ok], [⟨1, 0⟩, ⟨2, 0⟩, ⟨3, 0⟩]⟩ ⟨3, ⟨false, false, false⟩, 0⟩
        false false ⟨[]⟩ ⟨100, 0⟩
        ⟨⟨[.ok, .err (.OtherTransaction 1), .err (.OtherTransaction 2)], [], []⟩,
          [], ⟨[]⟩⟩).result
      = .err (.OtherTransaction 1) := by
  have h := execute_batch_first_error ⟨[.ok, .ok, .ok], [⟨1, 0⟩, ⟨2, 0⟩, ⟨3, 0⟩]⟩
    ⟨3, ⟨false, false, false⟩, 0⟩ false false ⟨[]⟩ ⟨100, 0⟩
    ⟨⟨[.ok, .err (.OtherTransaction 1), .err (.OtherTransaction 2)], [], []⟩, [], ⟨[]⟩⟩
    (by decide) (Or.inl rfl) (by decide)
  rw [h]
  rfl

/-- C3: the two accounts-data-size checks are independently feature-gated.
When the cost cap does not preempt them: with
`cap_accounts_data_size_per_block` active and the bank's on-chain delta
above `MAX_ACCOUNT_DATA_BLOCK_LEN`, `execute_batch` returns
`Err(WouldExceedAccountDataBlockLimit)` regardless of the execution results;
with `cap_accounts_data_len` active, the per-block check passing, and some
flattened execution result carrying
`InstructionError::MaxAccountsDataSizeExceeded`, `execute_batch` returns the
first such original error.  An inactive flag makes its check return `Ok`. -/
theorem execute_batch_accounts_data_checks (batch : TransactionBatch) (bank : Bank)
    (tss rvs : Bool) (timings : ExecuteTimings) (meter : BlockCostCapacityMeter)
    (exec : LoadExecuteCommitOutput)
    (hcap : bank.feature_set.gate_large_block = false ∨
      (meter.accumulate (aggregate_total_execution_units exec.timings
        - aggregate_total_execution_units timings)).2 ≠ 0) :
    (bank.feature_set.cap_accounts_data_size_per_block = true →
      bank.accounts_data_size_delta_on_chain > (MAX_ACCOUNT_DATA_BLOCK_LEN : Int) →
      (execute_batch batch bank tss rvs timings meter exec).result
        = .err .WouldExceedAccountDataBlockLimit) ∧
    (∀ r, bank.feature_set.cap_accounts_data_len = true →
      check_accounts_data_block_size bank = .ok →
      (exec.tx_results.execution_results.map
          TransactionExecutionResult.flattened_result).find?
        is_max_accounts_data_size_exceeded = some r →
      (execute_batch batch bank tss rvs timings meter exec).result = r) ∧
    (bank.feature_set.cap_accounts_data_size_per_block = false →
      check_accounts_data_block_size bank = .ok) ∧
    (bank.feature_set.cap_accounts_data_len = false →
      check_accounts_data_total_size bank exec.tx_results.execution_results = .ok) := by
  obtain ⟨m, hm⟩ := execute_batch_no_cost_short_circuit batch bank tss rvs timings meter
    exec hcap
  refine ⟨fun hflag hdelta => ?_, fun r hflag hblock hfind => ?_, fun hflag => ?_,
    fun hflag => ?_⟩
  · have hblock : check_accounts_data_block_size bank
        = .err .WouldExceedAccountDataBlockLimit := by
      unfold check_accounts_data_block_size
      rw [hflag]
      simp [hdelta]
    have hchk : check_accounts_data_size bank exec.tx_results.execution_results
        = .err .WouldExceedAccountDataBlockLimit := by
      unfold check_accounts_data_size
      rw [hblock]
    rw [hm, execute_batch_rest_of_checks_err batch bank tss rvs exec.tx_results
      exec.timings m _ hchk]
  · obtain ⟨i, hi⟩ := is_max_accounts_data_size_exceeded_true (List.find?_some hfind)
    have htot : check_accounts_data_total_size bank exec.tx_results.execution_results
        = r := by
      unfold check_accounts_data_total_size
      rw [hflag, hfind]
      rfl
    have hchk : check_accounts_data_size bank exec.tx_results.execution_results = r := by
      unfold check_accounts_data_size
      rw [hblock, htot]
    rw [hm, hi] at *
    rw [execute_batch_rest_of_checks_err batch bank tss rvs exec.tx_results
      exec.timings m _ (hi ▸ hchk)]
  · unfold check_accounts_data_block_size
    rw [hflag]
    rfl
  · unfold check_accounts_data_total_size
    rw [hflag]
    rfl

/-- C3 witness: with only `cap_accounts_data_size_per_block` active and an
on-chain delta one byte over the limit, a concrete call returns
`Err(WouldExceedAccountDataBlockLimit)`. -/
theorem execute_batch_accounts_data_checks_witness :
    (execute_batch ⟨[.ok], [⟨1, 0⟩]⟩ ⟨9, ⟨false, true, false⟩, 100000001⟩ true true
        ⟨[]⟩ ⟨100, 0⟩ ⟨⟨[.ok], [⟨.ok⟩], []⟩, [], ⟨[]⟩⟩).result
      = .err .WouldExceedAccountDataBlockLimit :=
  (execute_batch_accounts_data_checks ⟨[.ok], [⟨1, 0⟩]⟩ ⟨9, ⟨false, true, false⟩, 100000001⟩
      true true ⟨[]⟩ ⟨100, 0⟩ ⟨⟨[.ok], [⟨.ok⟩], []⟩, [], ⟨[]⟩⟩
      (Or.inl rfl)).1 rfl (by decide)

/-- C4: whenever `recv_and_drain` returns `Ok(v)`, `v` is non-empty: its
head is the value obtained by the blocking receive and its tail is exactly
the already-ready responses drained without blocking in the same call; it
returns an error exactly when the blocking receive reports the channel
closed (crossbeam: closed and empty). -/
theorem recv_and_drain_spec (first : RecvOut ReplayResponse)
    (ready : List ReplayResponse) :
    (∀ v, recv_and_drain first ready = .ok v →
      v ≠ [] ∧ v.length = ready.length + 1 ∧
      ∃ r, first = .ok r ∧ v = r :: ready) ∧
    (recv_and_drain first ready = .closed ↔ first = .closed) := by
  cases first with
  | ok r =>
    refine ⟨fun v hv => ?_, by simp [recv_and_drain]⟩
    simp only [recv_and_drain, RecvOut.ok.injEq] at hv
    subst hv
    exact ⟨by simp, by simp, r, rfl, rfl⟩
  | closed =>
    exact ⟨fun v hv => by simp [recv_and_drain] at hv, by simp [recv_and_drain]⟩

/-- C4 witness: a blocking receive yielding one response with two more
already queued produces a list of three, headed by the blocking one. -/
theorem recv_and_drain_spec_witness :
    recv_and_drain (.ok ⟨.ok, ⟨[]⟩, some 0⟩)
        [⟨.ok, ⟨[]⟩, some 1⟩, ⟨.ok, ⟨[]⟩, some 2⟩]
      = .ok [⟨.ok, ⟨[]⟩, some 0⟩, ⟨.ok, ⟨[]⟩, some 1⟩, ⟨.ok, ⟨[]⟩, some 2⟩] ∧
    ¬ ([⟨.ok, ⟨[]⟩, some 0⟩, ⟨.ok, ⟨[]⟩, some 1⟩, ⟨.ok, ⟨[]⟩, some 2⟩]
        : List ReplayResponse) = [] := by
  have h := (recv_and_drain_spec (.ok ⟨.ok, ⟨[]⟩, some 0⟩)
    [⟨.ok, ⟨[]⟩, some 1⟩, ⟨.ok, ⟨[]⟩, some 2⟩]).1
    [⟨.ok, ⟨[]⟩, some 0⟩, ⟨.ok, ⟨[]⟩, some 1⟩, ⟨.ok, ⟨[]⟩, some 2⟩] rfl
  exact ⟨rfl, h.1⟩

/-- C5: for every request a worker receives, it wraps the transaction in a
single-element batch (one `Ok` lock result), executes it with a fresh
default `ExecuteTimings`, invokes the entry callback exactly when present,
and (when the send succeeds) emits exactly one response whose `idx` equals
the request's `idx`; when the request channel is closed it exits cleanly
emitting nothing, and when the response send fails it logs and exits the
loop — in all cases the iteration returns a step value rather than
aborting. -/
theorem worker_iteration_spec (recv : RecvOut ReplayRequest)
    (exec : LoadExecuteCommitOutput) (send_ok : Bool) :
    (∀ req, recv = .ok req → send_ok = true →
      worker_iteration recv exec send_ok =
        { responses := [{
            result := (execute_batch ⟨[.ok], [req.tx]⟩ req.bank
              req.transaction_status_sender req.replay_vote_sender
              ExecuteTimings.default req.cost_capacity_meter exec).result,
            timing := (execute_batch ⟨[.ok], [req.tx]⟩ req.bank
              req.transaction_status_sender req.replay_vote_sender
              ExecuteTimings.default req.cost_capacity_meter exec).timings,
            idx := req.idx }],
          callback_invoked := req.entry_callback, step := .continue_loop } ∧
      (worker_iteration recv exec send_ok).responses.map ReplayResponse.idx = [req.idx]) ∧
    (recv = .closed →
      worker_iteration recv exec send_ok =
        { responses := [], callback_invoked := false, step := .exit_clean }) ∧
    (∀ req, recv = .ok req → send_ok = false →
      (worker_iteration recv exec send_ok).responses = [] ∧
      (worker_iteration recv exec send_ok).callback_invoked = req.entry_callback ∧
      (worker_iteration recv exec send_ok).step = .exit_send_failed) := by
  refine ⟨fun req hr hs => ?_, fun hr => ?_, fun req hr hs => ?_⟩
  · subst hr hs
    exact ⟨rfl, rfl⟩
  · subst hr
    rfl
  · subst hr hs
    exact ⟨rfl, rfl, rfl⟩

/-- C5 witness: a concrete received request with `idx = some 5` yields
exactly one response with `idx = some 5` and a continuing loop. -/
theorem worker_iteration_spec_witness :
    (worker_iteration (.ok ⟨⟨3, ⟨false, false, false⟩, 0⟩, ⟨1, 0⟩, false, false,
        ⟨100, 0⟩, true, some 5⟩) ⟨⟨[.ok], [⟨.ok⟩], []⟩, [], ⟨[]⟩⟩ true).responses.map
      ReplayResponse.idx = [some 5] ∧
    (worker_iteration (.ok ⟨⟨3, ⟨false, false, false⟩, 0⟩, ⟨1, 0⟩, false, false,
        ⟨100, 0⟩, true, some 5⟩) ⟨⟨[.ok], [⟨.ok⟩], []⟩, [], ⟨[]⟩⟩ true).callback_invoked
      = true := by
  have h := (worker_iteration_spec (.ok ⟨⟨3, ⟨false, false, false⟩, 0⟩, ⟨1, 0⟩, false,
    false, ⟨100, 0⟩, true, some 5⟩) ⟨⟨[.ok], [⟨.ok⟩], []⟩, [], ⟨[]⟩⟩ true).1
    ⟨⟨3, ⟨false, false, false⟩, 0⟩, ⟨1, 0⟩, false, false, ⟨100, 0⟩, true, some 5⟩ rfl rfl
  exact ⟨h.2, by rw [h.1]⟩

/-- C6: `proto_packet_to_packet` produces a fixed-size buffer holding the
first `min(|data|, PACKET_DATA_SIZE)` wire bytes followed by zero padding
(truncating larger payloads); when meta is present the address is the parse
of `meta.addr` with fallback to `0.0.0.0`, and each of the flags
SIMPLE_VOTE_TX, FORWARDED, TRACER_TX, REPAIR is set if and only if the
corresponding wire boolean is true. -/
theorem proto_packet_to_packet_spec (parse_ip : String → Option IpAddr)
    (p : ProtoPacket) :
    (proto_packet_to_packet parse_ip p).data
      = p.data.take (min PACKET_DATA_SIZE p.data.length)
        ++ List.replicate (PACKET_DATA_SIZE - min PACKET_DATA_SIZE p.data.length) 0 ∧
    (∀ m, p.meta = some m →
      (proto_packet_to_packet parse_ip p).meta.addr = (parse_ip m.addr).getD UNKNOWN_IP ∧
      (∀ f, m.flags = some f →
        (proto_packet_to_packet parse_ip p).meta.flags.simple_vote_tx = f.simple_vote_tx ∧
        (proto_packet_to_packet parse_ip p).meta.flags.forwarded = f.forwarded ∧
        (proto_packet_to_packet parse_ip p).meta.flags.tracer_tx = f.tracer_tx ∧
        (proto_packet_to_packet parse_ip p).meta.flags.repair = f.repair)) := by
  refine ⟨?_, fun m hm => ⟨?_, fun f hf => ?_⟩⟩
  · rw [proto_packet_to_packet_data, proto_buffer_eq_pad]
  · rw [proto_packet_to_packet_addr, wire_logical_addr, hm]
  · rw [proto_packet_to_packet_flags]
    simp [wire_logical_flags, hm, hf]

/-- C6 witness: a concrete wire packet with meta and flags present is
lowered to the parsed address and the matching flag set. -/
theorem proto_packet_to_packet_spec_witness :
    (proto_packet_to_packet (fun s => if s = "1.2.3.4" then some (.v4 1 2 3 4) else none)
        ⟨[9, 8], some ⟨2, "1.2.3.4", 99, some ⟨true, false, true, false⟩⟩⟩).meta.addr
      = .v4 1 2 3 4 ∧
    (proto_packet_to_packet (fun s => if s = "1.2.3.4" then some (.v4 1 2 3 4) else none)
        ⟨[9, 8], some ⟨2, "1.2.3.4", 99, some ⟨true, false, true, false⟩⟩⟩).meta.flags.simple_vote_tx
      = true ∧
    (proto_packet_to_packet (fun s => if s = "1.2.3.4" then some (.v4 1 2 3 4) else none)
        ⟨[9, 8], some ⟨2, "1.2.3.4", 99, some ⟨true, false, true, false⟩⟩⟩).meta.flags.forwarded
      = false := by
  have h := (proto_packet_to_packet_spec
    (fun s => if s = "1.2.3.4" then some (.v4 1 2 3 4) else none)
    ⟨[9, 8], some ⟨2, "1.2.3.4", 99, some ⟨true, false, true, false⟩⟩⟩).2
    ⟨2, "1.2.3.4", 99, some ⟨true, false, true, false⟩⟩ rfl
  have hf := h.2 ⟨true, false, true, false⟩ rfl
  refine ⟨?_, hf.1, hf.2.1⟩
  rw [h.1]
  decide

/-- C7 counterexample: the round-trip claim fails as stated.  The wire
schema's `port` is a `u32` but the canonical packet stores a `u16`
(`meta.port as u16`), so a wire packet with empty data (within the MTU) and
port 65536 comes back with port 0: not the same logical content. -/
theorem proto_packet_roundtrip_counterexample :
    (⟨[], some ⟨0, "0.0.0.0", 65536, none⟩⟩ : ProtoPacket).data.length
      ≤ PACKET_DATA_SIZE ∧
    ¬ wire_logical_equiv (fun _ => none)
        (packet_to_proto_packet (fun _ => "0.0.0.0")
          (proto_packet_to_packet (fun _ => none)
            ⟨[], some ⟨0, "0.0.0.0", 65536, none⟩⟩))
        ⟨[], some ⟨0, "0.0.0.0", 65536, none⟩⟩ := by
  refine ⟨by decide, fun h => absurd h.2.2.1 (by decide)⟩

/-- C7 amended: for a wire packet whose data fits in the MTU, whose port
fits in a `u16`, and whose denoted address is re-parsed exactly by the
address rendering, lowering with `proto_packet_to_packet` and re-serializing
yields the same logical content (data padding aside, same denoted address,
port, size, and flag booleans). -/
theorem proto_packet_roundtrip (parse_ip : String → Option IpAddr)
    (ip_to_string : IpAddr → String) (p : ProtoPacket)
    (hlen : p.data.length ≤ PACKET_DATA_SIZE)
    (hport : wire_logical_port p < 65536)
    (hinv : parse_ip (ip_to_string (wire_logical_addr parse_ip p))
      = some (wire_logical_addr parse_ip p)) :
    wire_logical_equiv parse_ip
      (packet_to_proto_packet ip_to_string (proto_packet_to_packet parse_ip p)) p := by
  refine ⟨?_, ?_, ?_, ?_, ?_⟩
  · show pad_to_mtu (proto_packet_to_packet parse_ip p).data = pad_to_mtu p.data
    rw [proto_packet_to_packet_data,
      pad_to_mtu_of_length_eq (pad_to_mtu_length p.data)]
  · show ((parse_ip (ip_to_string (proto_packet_to_packet parse_ip p).meta.addr)).getD
        UNKNOWN_IP) = wire_logical_addr parse_ip p
    rw [proto_packet_to_packet_addr, hinv]
    rfl
  · show (proto_packet_to_packet parse_ip p).meta.port = wire_logical_port p
    rw [proto_packet_to_packet_port, Nat.mod_eq_of_lt hport]
  · show (proto_packet_to_packet parse_ip p).meta.size = wire_logical_size p
    rw [proto_packet_to_packet_size]
  · show (⟨(proto_packet_to_packet parse_ip p).meta.flags.simple_vote_tx,
        (proto_packet_to_packet parse_ip p).meta.flags.forwarded,
        (proto_packet_to_packet parse_ip p).meta.flags.tracer_tx,
        (proto_packet_to_packet parse_ip p).meta.flags.repair⟩ : ProtoPacketFlags)
      = wire_logical_flags p
    rw [proto_packet_to_packet_flags]

/-- C7 witness for the amended round-trip: a concrete in-range packet with
parse and rendering inverse at its address round-trips. -/
theorem proto_packet_roundtrip_witness :
    wire_logical_equiv (fun s => if s = "0.0.0.0" then some UNKNOWN_IP else none)
      (packet_to_proto_packet (fun _ => "0.0.0.0")
        (proto_packet_to_packet (fun s => if s = "0.0.0.0" then some UNKNOWN_IP else none)
          ⟨[1, 2], some ⟨2, "0.0.0.0", 80, some ⟨true, false, true, false⟩⟩⟩))
      ⟨[1, 2], some ⟨2, "0.0.0.0", 80, some ⟨true, false, true, false⟩⟩⟩ :=
  proto_packet_roundtrip (fun s => if s = "0.0.0.0" then some UNKNOWN_IP else none)
    (fun _ => "0.0.0.0") ⟨[1, 2], some ⟨2, "0.0.0.0", 80, some ⟨true, false, true, false⟩⟩⟩
    (by decide) (by decide) (by decide)

/-- C8: `Tpu::join` returns within the hard ceiling
`TPU_THREADS_JOIN_TIMEOUT_SECONDS = 10` seconds of wall-clock time (modelled
as the `recv_timeout` bound on the waiter's completion time): if the inner
`do_join` has not signalled within the ceiling — including a waiter that
never signals — the timeout is logged and `Ok(())` is returned anyway, so a
stuck worker never prevents return; and `do_join` joins the ten pipeline
stages first, the QUIC listener next, and the broadcast stage last. -/
theorem tpu_join_bounded_and_ordered (d : Option Nat) (j : TpuStage → JoinResult) :
    TPU_THREADS_JOIN_TIMEOUT_SECONDS = 10 ∧
    (tpu_join d j).elapsed_seconds ≤ TPU_THREADS_JOIN_TIMEOUT_SECONDS ∧
    (∀ t, d = some t → TPU_THREADS_JOIN_TIMEOUT_SECONDS < t →
      (tpu_join d j).timeout_logged = true ∧
      (tpu_join d j).elapsed_seconds = TPU_THREADS_JOIN_TIMEOUT_SECONDS ∧
      (tpu_join d j).result = .ok) ∧
    (d = none →
      (tpu_join d j).timeout_logged = true ∧ (tpu_join d j).result = .ok) ∧
    ((do_join j).1
        = tpu_pipeline_join_order ++ [TpuStage.tpu_quic, TpuStage.broadcast_stage] ∨
      (do_join j).1 = tpu_pipeline_join_order ++ [TpuStage.tpu_quic]) := by
  refine ⟨rfl, ?_, fun t ht hgt => ?_, fun hn => ?_, ?_⟩
  · cases d with
    | none => exact Nat.le_refl _
    | some t =>
      by_cases h : t ≤ TPU_THREADS_JOIN_TIMEOUT_SECONDS <;> simp [tpu_join, h]
  · subst ht
    have h : ¬ t ≤ TPU_THREADS_JOIN_TIMEOUT_SECONDS := Nat.not_le_of_lt hgt
    refine ⟨?_, ?_, ?_⟩ <;> simp [tpu_join, h]
  · subst hn
    exact ⟨rfl, rfl⟩
  · cases hq : j TpuStage.tpu_quic with
    | ok => exact Or.inl (by simp [do_join, hq])
    | err e => exact Or.inr (by simp [do_join, hq])

/-- C8 witness: a waiter taking 11 seconds is cut off at the 10-second
ceiling, the timeout is logged, and join still returns `Ok`. -/
theorem tpu_join_bounded_and_ordered_witness :
    (tpu_join (some 11) (fun _ => JoinResult.ok)).timeout_logged = true ∧
    (tpu_join (some 11) (fun _ => JoinResult.ok)).elapsed_seconds
      = TPU_THREADS_JOIN_TIMEOUT_SECONDS ∧
    (tpu_join (some 11) (fun _ => JoinResult.ok)).result = .ok :=
  (tpu_join_bounded_and_ordered (some 11) (fun _ => JoinResult.ok)).2.2.1 11 rfl
    (by decide)

/-- C9: the unchecked `u64` subtraction
`aggregate_total_execution_units(timings) - pre_process_units` in
`execute_batch` never underflows in the worker loop: each request starts
from `ExecuteTimings::default()`, whose aggregate is 0, so the snapshot is
always below the post-execution aggregate and the subtraction is exact. -/
theorem replay_worker_cost_delta_no_underflow :
    aggregate_total_execution_units ExecuteTimings.default = 0 ∧
    ∀ exec : LoadExecuteCommitOutput,
      aggregate_total_execution_units ExecuteTimings.default
        ≤ aggregate_total_execution_units exec.timings ∧
      aggregate_total_execution_units exec.timings
        - aggregate_total_execution_units ExecuteTimings.default
        = aggregate_total_execution_units exec.timings := by
  refine ⟨rfl, fun exec => ⟨Nat.zero_le _, ?_⟩⟩
  rw [show aggregate_total_execution_units ExecuteTimings.default = 0 from rfl,
    Nat.sub_zero]

/-- C10: `Tpu::join` always returns `Ok(())`: the waiter thread discards the
result of `do_join`, so the returned value does not depend on any stage's
join outcome (error or panic), nor on whether the waiter signals at all. -/
theorem tpu_join_discards_do_join_result (d : Option Nat)
    (j j2 : TpuStage → JoinResult) :
    (tpu_join d j).result = .ok ∧ tpu_join d j = tpu_join d j2 := by
  constructor
  · cases d with
    | none => rfl
    | some t =>
      by_cases h : t ≤ TPU_THREADS_JOIN_TIMEOUT_SECONDS <;> simp [tpu_join, h]
  · rfl

end Jito
